import Mathlib

set_option linter.unusedVariables false

/-!
Verification of the DPTNet model-definition module
(`src/models/dptnet.py` of the DNN-based source separation repository).

The module is embedded shallowly:
* construction of the network modules (which in Python either stores
  configuration or raises) becomes `Except PyError`-valued functions;
* tensor shapes become natural-number arithmetic;
* tensor data becomes functions `Fin B → Fin C → Fin T → ℝ` (3-d) or
  lists of reals (waveforms);
* the final mask nonlinearities (`relu`, `sigmoid`, `softmax`) are the
  exact real-valued functions the tensor library computes.
-/

/-- The kinds of Python exceptions the module can raise. -/
inductive PyError where
  | notImplementedError : PyError
  | valueError : String → PyError
  | assertionError : String → PyError
  | zeroDivisionError : PyError
  deriving DecidableEq, Repr

/-- The three supported mask nonlinearities of `Separator.__init__`. -/
inductive MaskNonlinear where
  | relu : MaskNonlinear
  | sigmoid : MaskNonlinear
  | softmax : MaskNonlinear
  deriving DecidableEq, Repr

/-- The `if/elif/else` dispatch on `mask_nonlinear` in `Separator.__init__`
(dptnet.py lines 116-123): `relu`, `sigmoid` and `softmax` select the
corresponding module, anything else raises
`ValueError("Cannot support ...")`. -/
def chooseMaskNonlinear (s : String) : Except PyError MaskNonlinear :=
  if s = "relu" then .ok .relu
  else if s = "sigmoid" then .ok .sigmoid
  else if s = "softmax" then .ok .softmax
  else .error (.valueError ("Cannot support " ++ s))

/-- `IntraChunkTransformer.__init__` raises `NotImplementedError`
unconditionally (dptnet.py lines 195-199). -/
def intraChunkTransformerInit (num_features hidden_channels : ℕ)
    (eps : ℝ) : Except PyError Unit :=
  .error .notImplementedError

/-- `InterChunkTransformer.__init__` raises `NotImplementedError`
unconditionally (dptnet.py lines 201-204). -/
def interChunkTransformerInit (num_features hidden_channels : ℕ)
    (causal : Bool) (eps : ℝ) : Except PyError Unit :=
  .error .notImplementedError

/-- `DualPathTransformerBlock.__init__`: builds the intra-chunk block,
then the inter-chunk block. -/
def dualPathTransformerBlockInit (num_features hidden_channels : ℕ)
    (causal : Bool) (eps : ℝ) : Except PyError Unit := do
  let _ ← intraChunkTransformerInit num_features hidden_channels eps
  let _ ← interChunkTransformerInit num_features hidden_channels causal eps
  pure ()

/-- `DualPathTransformer.__init__`: appends `num_blocks` copies of
`DualPathTransformerBlock` into a sequential container. -/
def dualPathTransformerInit (num_features hidden_channels num_blocks : ℕ)
    (causal : Bool) (eps : ℝ) : Except PyError (List Unit) :=
  (List.range num_blocks).mapM
    (fun _ => dualPathTransformerBlockInit num_features hidden_channels causal eps)

/-- Modelled from the spec: `Segment1d` lives in `models/dprnn_tasnet.py`,
which is not part of the sources here; the spec describes it as a pure
tensor-shape transform whose constructor merely records
`chunk_size`/`hop_size`, so its construction always succeeds. -/
def segment1dInit (chunk_size hop_size : ℕ) : Except PyError Unit :=
  .ok ()

/-- Modelled from the spec: `OverlapAdd1d` lives in
`models/dprnn_tasnet.py`, not part of the sources here; per the spec it is
a pure tensor-shape transform whose construction always succeeds. -/
def overlapAdd1dInit (chunk_size hop_size : ℕ) : Except PyError Unit :=
  .ok ()

/-- Modelled from the spec: `GLU` lives in `models/glu.py`, not part of
the sources here; per the spec it is a channel-expanding projection whose
construction always succeeds. -/
def gluInit (in_channels out_channels : ℕ) (out_nonlinear : String) :
    Except PyError Unit :=
  .ok ()

/-- `Separator.__init__` (dptnet.py lines 105-123), in source order:
build `Segment1d`, the `DualPathTransformer` stack, `OverlapAdd1d`, the
`GLU` projection, and finally dispatch on `mask_nonlinear`.  The value
returned is the selected mask nonlinearity. -/
def separatorInit (num_features hidden_channels chunk_size hop_size
    num_blocks : ℕ) (causal norm : Bool)
    (out_nonlinear mask_nonlinear : String) (n_sources : ℕ) (eps : ℝ) :
    Except PyError MaskNonlinear := do
  let _ ← segment1dInit chunk_size hop_size
  let _ ← dualPathTransformerInit num_features hidden_channels num_blocks causal eps
  let _ ← overlapAdd1dInit chunk_size hop_size
  let _ ← gluInit num_features (n_sources * num_features) out_nonlinear
  chooseMaskNonlinear mask_nonlinear

/-- The head of `DPTNet.__init__` (dptnet.py lines 16-19): default the
stride to `kernel_size // 2` when it is `None`, then assert
`kernel_size % stride == 0`. This definition is the stride defaulting
(dptnet.py lines 16-17). -/
def resolveStride (kernel_size : ℕ) (stride : Option ℕ) : ℕ :=
  match stride with
  | none => kernel_size / 2
  | some v => v

/-- The divisibility assertion of `DPTNet.__init__` (dptnet.py line 19),
after the stride has been resolved.  In Python `kernel_size % 0` raises
`ZeroDivisionError`, modelled explicitly.  Returns the resolved
`(kernel_size, stride)` pair. -/
def dptnetCheck (kernel_size : ℕ) (stride : Option ℕ) :
    Except PyError (ℕ × ℕ) :=
  let s := resolveStride kernel_size stride
  if s = 0 then .error .zeroDivisionError
  else if kernel_size % s = 0 then .ok (kernel_size, s)
  else .error (.assertionError "kernel_size is expected divisible by stride")

/-- `DPTNet.__init__` (dptnet.py lines 13-55): resolve and check the
stride, call the `choose_bases` factory (an external collaborator from
`utils/utils_tasnet.py`, abstracted as the function argument
`chooseBases`), then build the `Separator` (passing the default
`out_nonlinear='tanh'`). -/
def dptnetInit (chooseBases : ℕ → ℕ → ℕ → Except PyError Unit)
    (n_bases kernel_size : ℕ) (stride : Option ℕ)
    (sep_hidden_channels sep_chunk_size sep_hop_size sep_num_blocks : ℕ)
    (causal sep_norm : Bool) (mask_nonlinear : String) (n_sources : ℕ)
    (eps : ℝ) : Except PyError MaskNonlinear := do
  let ks ← dptnetCheck kernel_size stride
  let _ ← chooseBases n_bases ks.1 ks.2
  separatorInit n_bases sep_hidden_channels sep_chunk_size sep_hop_size
    sep_num_blocks causal sep_norm "tanh" mask_nonlinear n_sources eps

/-- The padding amount computed at dptnet.py line 78:
`padding = (stride - (T - kernel_size) % stride) % stride`
(for inputs with `kernel_size ≤ T`, so the Python subtraction is the
natural one). -/
def paddingAmt (kernel_size stride T : ℕ) : ℕ :=
  (stride - (T - kernel_size) % stride) % stride

/-- `padding_left = padding // 2` (dptnet.py line 79). -/
def padLeftAmt (kernel_size stride T : ℕ) : ℕ :=
  paddingAmt kernel_size stride T / 2

/-- `padding_right = padding - padding_left` (dptnet.py line 80). -/
def padRightAmt (kernel_size stride T : ℕ) : ℕ :=
  paddingAmt kernel_size stride T - padLeftAmt kernel_size stride T

/-- Modelled from the spec: the encoder is an external collaborator
(section 4.1) mapping `(batch, 1, T_padded)` to `(batch, bases, T_bin)`
with `T_bin = (T_padded - kernel_size) / stride + 1`, as stated in the
docstring of `DPTNet.extract_latent`. -/
def encoderOutLen (kernel_size stride T_padded : ℕ) : ℕ :=
  (T_padded - kernel_size) / stride + 1

/-- Modelled from the spec: the decoder is an external collaborator
(section 4.1) inverting the encoder, mapping `(batch, bases, T_bin)` back
to `(batch, 1, (T_bin - 1) * stride + kernel_size)`. -/
def decoderOutLen (kernel_size stride T_bin : ℕ) : ℕ :=
  (T_bin - 1) * stride + kernel_size

/-- `F.pad(x, (padding_left, padding_right))` on the last axis of a
waveform, with zero fill. -/
def padWave (padding_left padding_right : ℕ) (x : List ℝ) : List ℝ :=
  List.replicate padding_left 0 ++ x ++ List.replicate padding_right 0

/-- `F.pad(x, (-padding_left, -padding_right))` on the last axis: negative
padding crops, keeping `x[padding_left : len - padding_right]`. -/
def cropWave (padding_left padding_right : ℕ) (x : List ℝ) : List ℝ :=
  (x.drop padding_left).take (x.length - padding_left - padding_right)

/-- The shape pipeline of `DPTNet.extract_latent` (dptnet.py lines 62-93):
check `C_in == 1`, pad to `T_padded`, encode to `T_bin` frames, mask
(the separator preserves `T_bin` and adds the source axis), decode, crop.
Returns the output shape `(batch, n_sources, T_out)` and the latent shape
`(batch, n_sources, n_bases, T_bin)`. -/
def extractLatentShapes (kernel_size stride n_bases n_sources : ℕ)
    (batch c_in T : ℕ) :
    Except PyError ((ℕ × ℕ × ℕ) × (ℕ × ℕ × ℕ × ℕ)) := do
  let _ ← (if c_in = 1 then Except.ok ()
    else Except.error (PyError.assertionError
      "input.size() is expected (?,1,?)"))
  let pl := padLeftAmt kernel_size stride T
  let pr := padRightAmt kernel_size stride T
  let T_padded := T + pl + pr
  let T_bin := encoderOutLen kernel_size stride T_padded
  let T_dec := decoderOutLen kernel_size stride T_bin
  let T_out := T_dec - pl - pr
  .ok ((batch, n_sources, T_out), (batch, n_sources, n_bases, T_bin))

/-- A model parameter: its element count and its `requires_grad` flag. -/
structure Param where
  numel : ℕ
  requiresGrad : Bool
  deriving DecidableEq, Repr

/-- `DPTNet._get_num_parameters` (dptnet.py lines 95-102): start from 0
and add `p.numel()` for each parameter with `p.requires_grad`. -/
def getNumParameters (params : List Param) : ℕ :=
  params.foldl (fun acc p => if p.requiresGrad then acc + p.numel else acc) 0

/-- `torch.nn.ReLU` applied elementwise. -/
def reluFn (x : ℝ) : ℝ := max x 0

/-- `torch.nn.Sigmoid` applied elementwise:
`sigmoid x = 1 / (1 + exp (-x))`. -/
noncomputable def sigmoidFn (x : ℝ) : ℝ := 1 / (1 + Real.exp (-x))

/-- `torch.nn.Softmax(dim=1)` on a tensor of shape `(B, C, T)`:
normalizes the exponentials along the channel axis. -/
noncomputable def softmaxDim1 {B C T : ℕ}
    (x : Fin B → Fin C → Fin T → ℝ) : Fin B → Fin C → Fin T → ℝ :=
  fun b c t => Real.exp (x b c t) / ∑ c2 : Fin C, Real.exp (x b c2 t)

/-- The mask nonlinearity module selected in `Separator.__init__`, applied
(dptnet.py line 147) to the GLU output of shape
`(batch, n_sources * num_features, T_bin)` — before the reshape. -/
noncomputable def applyMaskNonlinear (m : MaskNonlinear) {B C T : ℕ}
    (x : Fin B → Fin C → Fin T → ℝ) : Fin B → Fin C → Fin T → ℝ :=
  match m with
  | .relu => fun b c t => reluFn (x b c t)
  | .sigmoid => fun b c t => sigmoidFn (x b c t)
  | .softmax => softmaxDim1 x

/-- `x.view(batch_size, n_sources, num_features, T_bin)` (dptnet.py line
148) on a tensor of shape `(B, S * F, T)`: entry `(b, s, f, t)` is entry
`(b, s * F + f, t)` of the input. -/
def viewMask {B S F T : ℕ} (x : Fin B → Fin (S * F) → Fin T → ℝ) :
    Fin B → Fin S → Fin F → Fin T → ℝ :=
  fun b s f t =>
    x b ⟨s.val * F + f.val, by
      calc s.val * F + f.val < s.val * F + F := by omega
        _ = (s.val + 1) * F := by ring
        _ ≤ S * F := Nat.mul_le_mul_right F s.isLt⟩ t

/-- The final stage of `Separator.forward` (dptnet.py lines 146-148):
apply the selected mask nonlinearity to the GLU output, then reshape to
`(batch, n_sources, num_features, T_bin)`. -/
noncomputable def separatorMask (m : MaskNonlinear) {B S F T : ℕ}
    (x : Fin B → Fin (S * F) → Fin T → ℝ) :
    Fin B → Fin S → Fin F → Fin T → ℝ :=
  viewMask (applyMaskNonlinear m x)

lemma dualPathTransformerBlockInit_eq (nf hc : ℕ) (c : Bool) (e : ℝ) :
    dualPathTransformerBlockInit nf hc c e = .error .notImplementedError :=
  rfl

lemma dualPathTransformerInit_zero (nf hc : ℕ) (c : Bool) (e : ℝ) :
    dualPathTransformerInit nf hc 0 c e = .ok [] :=
  rfl

lemma dualPathTransformerInit_pos (nf hc nb : ℕ) (c : Bool) (e : ℝ)
    (h : 1 ≤ nb) :
    dualPathTransformerInit nf hc nb c e = .error .notImplementedError := by
  cases nb with
  | zero => omega
  | succ n =>
    unfold dualPathTransformerInit
    rw [List.range_succ_eq_map, List.mapM_cons, dualPathTransformerBlockInit_eq]
    rfl

lemma separatorInit_pos (nf hc cs hs nb : ℕ) (c n : Bool)
    (out mask : String) (ns : ℕ) (e : ℝ) (h : 1 ≤ nb) :
    separatorInit nf hc cs hs nb c n out mask ns e
      = .error .notImplementedError := by
  unfold separatorInit
  rw [show segment1dInit cs hs = .ok () from rfl,
    dualPathTransformerInit_pos nf hc nb c e h]
  rfl

lemma separatorInit_zero (nf hc cs hs : ℕ) (c n : Bool)
    (out mask : String) (ns : ℕ) (e : ℝ) :
    separatorInit nf hc cs hs 0 c n out mask ns e
      = chooseMaskNonlinear mask :=
  rfl

/-- C7: for every choice of `num_features`, `hidden_channels`, `causal`
and `eps`, constructing `IntraChunkTransformer` or
`InterChunkTransformer` fails unconditionally with `NotImplementedError`,
which is distinct from the `ValueError`/`AssertionError` configuration
errors raised elsewhere in the module. -/
theorem C7_subtransformers_unimplemented :
    (∀ (nf hc : ℕ) (eps : ℝ),
      intraChunkTransformerInit nf hc eps = .error .notImplementedError) ∧
    (∀ (nf hc : ℕ) (causal : Bool) (eps : ℝ),
      interChunkTransformerInit nf hc causal eps
        = .error .notImplementedError) ∧
    (∀ msg : String,
      PyError.notImplementedError ≠ PyError.valueError msg ∧
      PyError.notImplementedError ≠ PyError.assertionError msg) :=
  ⟨fun _ _ _ => rfl, fun _ _ _ _ => rfl,
   fun msg => ⟨fun h => PyError.noConfusion h, fun h => PyError.noConfusion h⟩⟩

lemma getNumParameters_foldl (ps : List Param) (acc : ℕ) :
    ps.foldl (fun a p => if p.requiresGrad then a + p.numel else a) acc
      = acc + ((ps.filter (fun p => p.requiresGrad)).map Param.numel).sum := by
  induction ps generalizing acc with
  | nil => simp
  | cons p ps ih =>
    by_cases h : p.requiresGrad
    · simp [List.foldl_cons, h, ih, List.filter_cons]
      omega
    · simp [List.foldl_cons, h, ih, List.filter_cons]

/-- C8: `DPTNet._get_num_parameters` returns the sum of `numel` over
exactly the parameters with `requires_grad` set, excluding every frozen
parameter. -/
theorem C8_num_parameters_trainable_sum (ps : List Param) :
    getNumParameters ps
      = ((ps.filter (fun p => p.requiresGrad)).map Param.numel).sum := by
  simpa using getNumParameters_foldl ps 0

/-- C5: if the resolved stride does not divide `kernel_size`, `DPTNet`
construction stops at the assertion — with the assertion error, whatever
the basis factory and the remaining configuration would do — and if it
divides, the check passes and returns the resolved pair. -/
theorem C5_divisibility_check (K : ℕ) (stride : Option ℕ)
    (hs : resolveStride K stride ≠ 0) :
    (K % resolveStride K stride ≠ 0 →
      ∀ (chooseBases : ℕ → ℕ → ℕ → Except PyError Unit)
        (n_bases shc scs shs snb : ℕ) (c n : Bool) (mask : String)
        (ns : ℕ) (eps : ℝ),
        dptnetInit chooseBases n_bases K stride shc scs shs snb c n mask
            ns eps
          = .error (.assertionError
              "kernel_size is expected divisible by stride")) ∧
    (K % resolveStride K stride = 0 →
      dptnetCheck K stride = .ok (K, resolveStride K stride)) := by
  constructor
  · intro hK chooseBases n_bases shc scs shs snb c n mask ns eps
    have hc : dptnetCheck K stride
        = .error (.assertionError
            "kernel_size is expected divisible by stride") := by
      unfold dptnetCheck
      simp [hs, hK]
    unfold dptnetInit
    rw [hc]
    rfl
  · intro hK
    unfold dptnetCheck
    simp [hs, hK]

/-- Witness for C5 at kernel_size 5, stride 2. -/
theorem C5_divisibility_check_witness :
    dptnetInit (fun _ _ _ => .ok ()) 64 5 (some 2) 256 100 50 6 true true
        "sigmoid" 2 0
      = .error (.assertionError
          "kernel_size is expected divisible by stride") := by
  have h := C5_divisibility_check 5 (some 2) (by decide)
  exact h.1 (by decide) (fun _ _ _ => .ok ()) 64 256 100 50 6 true true
    "sigmoid" 2 0

/-- C6: `DPTNet.extract_latent` rejects any input whose channel dimension
is not 1 with the assertion error, before any padding or encoding; with
one channel the check passes and the pipeline proceeds. -/
theorem C6_channel_check (K S nbases ns batch c_in T : ℕ) :
    (c_in ≠ 1 →
      extractLatentShapes K S nbases ns batch c_in T
        = .error (.assertionError "input.size() is expected (?,1,?)")) ∧
    extractLatentShapes K S nbases ns batch 1 T
      = .ok ((batch, ns,
          decoderOutLen K S (encoderOutLen K S
              (T + padLeftAmt K S T + padRightAmt K S T))
            - padLeftAmt K S T - padRightAmt K S T),
        (batch, ns, nbases,
          encoderOutLen K S (T + padLeftAmt K S T + padRightAmt K S T))) := by
  constructor
  · intro h
    unfold extractLatentShapes
    simp only [if_neg h]
    rfl
  · rfl

/-- Witness for C6 at a 3-channel input. -/
theorem C6_channel_check_witness :
    extractLatentShapes 16 8 64 2 4 3 8000
      = .error (.assertionError "input.size() is expected (?,1,?)") :=
  (C6_channel_check 16 8 64 2 4 3 8000).1 (by decide)

/-- C10 counterexample: with kernel_size 3 and stride omitted, the
defaulted stride is 1 and the divisibility check passes even though 3 is
odd, contradicting the claim that every odd kernel_size at least 3 is
rejected. -/
theorem C10_counterexample :
    dptnetCheck 3 none = .ok (3, 1) ∧ 3 % 2 = 1 :=
  ⟨rfl, rfl⟩

/-- C10 amended: when stride is omitted it defaults to
`kernel_size // 2`; for kernel_size at least 2 the divisibility check
then passes for every even kernel_size and also for kernel_size 3, and
fails for every odd kernel_size at least 5. -/
theorem C10_default_stride_divisibility (K : ℕ) (h2 : 2 ≤ K) :
    resolveStride K none = K / 2 ∧
    (K % 2 = 0 → dptnetCheck K none = .ok (K, K / 2)) ∧
    (K = 3 → dptnetCheck K none = .ok (K, K / 2)) ∧
    (K % 2 = 1 → 5 ≤ K →
      dptnetCheck K none
        = .error (.assertionError
            "kernel_size is expected divisible by stride")) := by
  refine ⟨rfl, ?_, ?_, ?_⟩
  · intro he
    have hdvd : K / 2 * 2 = K := Nat.div_mul_cancel (Nat.dvd_of_mod_eq_zero he)
    have hs0 : K / 2 ≠ 0 := by omega
    have hmod : K % (K / 2) = 0 := Nat.mod_eq_zero_of_dvd ⟨2, hdvd.symm⟩
    unfold dptnetCheck resolveStride
    simp [hs0, hmod]
  · rintro rfl
    rfl
  · intro ho h5
    have hq : K = 2 * (K / 2) + 1 := by omega
    have hs0 : K / 2 ≠ 0 := by omega
    have hmod : K % (K / 2) = 1 := by
      have h1 : 2 * (K / 2) + 1 = 1 + (K / 2) * 2 := by ring
      calc K % (K / 2) = (2 * (K / 2) + 1) % (K / 2) := by rw [← hq]
        _ = 1 % (K / 2) := by rw [h1, Nat.add_mul_mod_self_left]
        _ = 1 := Nat.mod_eq_of_lt (by omega)
    unfold dptnetCheck resolveStride
    simp [hs0, hmod]

/-- Witness for the amended C10 at kernel_size 6 (even, accepted) and 7
(odd, rejected). -/
theorem C10_default_stride_witness :
    dptnetCheck 6 none = .ok (6, 3) ∧
    dptnetCheck 7 none
      = .error (.assertionError
          "kernel_size is expected divisible by stride") := by
  have h6 := (C10_default_stride_divisibility 6 (by norm_num)).2.1 (by norm_num)
  have h7 := (C10_default_stride_divisibility 7 (by norm_num)).2.2.2
    (by norm_num) (by norm_num)
  exact ⟨by simpa using h6, h7⟩

/-- C9: with at least one dual-path block, `Separator.__init__` raises
`NotImplementedError` from the transformer stack before the
`mask_nonlinear` dispatch runs, whatever the mask value is; hence the
unsupported-mask `ValueError` is reachable only with zero blocks. -/
theorem C9_not_implemented_precedes_mask_check :
    (∀ (nf hc cs hs nb : ℕ) (c n : Bool) (out mask : String) (ns : ℕ)
        (eps : ℝ), 1 ≤ nb →
      separatorInit nf hc cs hs nb c n out mask ns eps
        = .error .notImplementedError) ∧
    (∀ (nf hc cs hs nb : ℕ) (c n : Bool) (out mask : String) (ns : ℕ)
        (eps : ℝ) (msg : String),
      separatorInit nf hc cs hs nb c n out mask ns eps
        = .error (.valueError msg) → nb = 0) := by
  constructor
  · intro nf hc cs hs nb c n out mask ns eps h
    exact separatorInit_pos nf hc cs hs nb c n out mask ns eps h
  · intro nf hc cs hs nb c n out mask ns eps msg hEq
    cases nb with
    | zero => rfl
    | succ k =>
      rw [separatorInit_pos nf hc cs hs (k + 1) c n out mask ns eps
        (by omega)] at hEq
      exact absurd hEq (by simp)

/-- Witness for C9: with the default 6 blocks construction raises
`NotImplementedError` even for an unsupported mask value, and with zero
blocks the `ValueError` instance forces `num_blocks = 0`. -/
theorem C9_witness :
    separatorInit 64 256 100 50 6 true true "tanh" "bogus" 2 0
      = .error .notImplementedError ∧ (0 : ℕ) = 0 := by
  have h1 := C9_not_implemented_precedes_mask_check.1 64 256 100 50 6 true
    true "tanh" "bogus" 2 0 (by norm_num)
  have h2 := C9_not_implemented_precedes_mask_check.2 64 256 100 50 0 true
    true "tanh" "bogus" 2 0 ("Cannot support " ++ "bogus") rfl
  exact ⟨h1, h2⟩

/-- C2 counterexample: constructing the `Separator` with the unsupported
mask value "bogus" and the default 6 blocks does fail, but with
`NotImplementedError` — not with the configuration `ValueError` naming
the unsupported value. -/
theorem C2_counterexample :
    separatorInit 64 128 100 50 6 true true "tanh" "bogus" 2 0
      = .error .notImplementedError ∧
    PyError.notImplementedError
      ≠ PyError.valueError ("Cannot support " ++ "bogus") :=
  ⟨separatorInit_pos 64 128 100 50 6 true true "tanh" "bogus" 2 0
      (by norm_num),
   fun h => PyError.noConfusion h⟩

/-- C2 amended: an unsupported `mask_nonlinear` value never silently
defaults: the dispatch itself raises `ValueError` naming the value, with
zero blocks `Separator` construction surfaces exactly that error, and
with any block count construction never succeeds. -/
theorem C2_unsupported_mask_never_defaults (mask : String)
    (h1 : mask ≠ "relu") (h2 : mask ≠ "sigmoid") (h3 : mask ≠ "softmax") :
    chooseMaskNonlinear mask
      = .error (.valueError ("Cannot support " ++ mask)) ∧
    (∀ (nf hc cs hs : ℕ) (c n : Bool) (out : String) (ns : ℕ) (eps : ℝ),
      separatorInit nf hc cs hs 0 c n out mask ns eps
        = .error (.valueError ("Cannot support " ++ mask))) ∧
    (∀ (nf hc cs hs nb : ℕ) (c n : Bool) (out : String) (ns : ℕ)
        (eps : ℝ) (m : MaskNonlinear),
      separatorInit nf hc cs hs nb c n out mask ns eps ≠ .ok m) := by
  have hcm : chooseMaskNonlinear mask
      = .error (.valueError ("Cannot support " ++ mask)) := by
    unfold chooseMaskNonlinear
    simp [h1, h2, h3]
  refine ⟨hcm, ?_, ?_⟩
  · intro nf hc cs hs c n out ns eps
    rw [separatorInit_zero, hcm]
  · intro nf hc cs hs nb c n out ns eps m hEq
    cases nb with
    | zero =>
      rw [separatorInit_zero, hcm] at hEq
      exact Except.noConfusion hEq
    | succ k =>
      rw [separatorInit_pos nf hc cs hs (k + 1) c n out mask ns eps
        (by omega)] at hEq
      exact Except.noConfusion hEq

/-- Witness for the amended C2 at mask value "bogus" with zero blocks. -/
theorem C2_witness :
    separatorInit 32 128 100 50 0 true true "tanh" "bogus" 2 0
      = .error (.valueError ("Cannot support " ++ "bogus")) := by
  have h := C2_unsupported_mask_never_defaults "bogus" (by decide)
    (by decide) (by decide)
  exact h.2.1 32 128 100 50 true true "tanh" 2 0

lemma paddingAmt_mod (K S T : ℕ) (hS : 0 < S) (hT : K ≤ T) :
    (T + paddingAmt K S T - K) % S = 0 := by
  have key : (T - K + paddingAmt K S T) % S = 0 := by
    unfold paddingAmt
    by_cases h0 : (T - K) % S = 0
    · simp [h0]
    · have hr : (T - K) % S < S := Nat.mod_lt _ hS
      have h1 : S - (T - K) % S < S := by omega
      rw [Nat.mod_eq_of_lt h1, Nat.add_mod, Nat.mod_eq_of_lt h1]
      have h3 : (T - K) % S + (S - (T - K) % S) = S := by omega
      rw [h3, Nat.mod_self]
  have h4 : T + paddingAmt K S T - K = T - K + paddingAmt K S T := by
    omega
  rw [h4]
  exact key

lemma padLeft_add_padRight (K S T : ℕ) :
    padLeftAmt K S T + padRightAmt K S T = paddingAmt K S T := by
  unfold padRightAmt padLeftAmt
  omega

lemma crop_pad (pl pr : ℕ) (x : List ℝ) :
    cropWave pl pr (padWave pl pr x) = x := by
  unfold cropWave padWave
  have hlen : (List.replicate pl (0:ℝ) ++ x ++ List.replicate pr 0).length
      - pl - pr = x.length := by
    simp only [List.length_append, List.length_replicate]
    omega
  rw [hlen, List.append_assoc]
  have hdrop : (List.replicate pl (0:ℝ)
      ++ (x ++ List.replicate pr 0)).drop pl = x ++ List.replicate pr 0 := by
    have h := List.drop_left (List.replicate pl (0:ℝ))
      (x ++ List.replicate pr 0)
    rwa [List.length_replicate] at h
  rw [hdrop]
  exact List.take_left x (List.replicate pr (0:ℝ))

/-- C4: the computed padding makes `(T_padded - kernel_size)` divisible
by the stride, the left pad is `padding // 2`, the right pad is the
remainder, and cropping with the very same left/right amounts undoes the
padding exactly. -/
theorem C4_padding_strip (K S T : ℕ) (hS : 0 < S) (hT : K ≤ T) :
    (T + paddingAmt K S T - K) % S = 0 ∧
    padLeftAmt K S T = paddingAmt K S T / 2 ∧
    padRightAmt K S T = paddingAmt K S T - paddingAmt K S T / 2 ∧
    ∀ x : List ℝ,
      cropWave (padLeftAmt K S T) (padRightAmt K S T)
        (padWave (padLeftAmt K S T) (padRightAmt K S T) x) = x :=
  ⟨paddingAmt_mod K S T hS hT, rfl, rfl, fun x => crop_pad _ _ x⟩

/-- Witness for C4 at kernel_size 16, stride 8, length 20 and a concrete
waveform. -/
theorem C4_padding_strip_witness :
    (20 + paddingAmt 16 8 20 - 16) % 8 = 0 ∧
    cropWave (padLeftAmt 16 8 20) (padRightAmt 16 8 20)
      (padWave (padLeftAmt 16 8 20) (padRightAmt 16 8 20) [1, 2, 3])
      = [1, 2, 3] := by
  have h := C4_padding_strip 16 8 20 (by norm_num) (by norm_num)
  exact ⟨h.1, h.2.2.2 [1, 2, 3]⟩

lemma extractLatentShapes_ok (K S nbases ns batch T : ℕ) :
    extractLatentShapes K S nbases ns batch 1 T
      = .ok ((batch, ns,
          decoderOutLen K S (encoderOutLen K S
              (T + padLeftAmt K S T + padRightAmt K S T))
            - padLeftAmt K S T - padRightAmt K S T),
        (batch, ns, nbases,
          encoderOutLen K S (T + padLeftAmt K S T + padRightAmt K S T))) :=
  rfl

lemma decoder_encoder_roundtrip (K S Tp : ℕ) (hS : 0 < S) (hK : K ≤ Tp)
    (hmod : (Tp - K) % S = 0) :
    decoderOutLen K S (encoderOutLen K S Tp) = Tp := by
  unfold decoderOutLen encoderOutLen
  rw [Nat.add_sub_cancel]
  rw [Nat.div_mul_cancel (Nat.dvd_of_mod_eq_zero hmod)]
  omega

/-- C3: for a valid configuration and a single-channel input of length at
least `kernel_size`, the output shape of `extract_latent` is
`(batch, n_sources, T)` — the output length equals the input length — and
the latent shape is `(batch, n_sources, n_bases, T_bin)` with
`T_bin = (T_padded - kernel_size) / stride + 1`. -/
theorem C3_output_shape (K S nbases ns batch T : ℕ) (hS : 0 < S)
    (hT : K ≤ T) (hdvd : K % S = 0) :
    extractLatentShapes K S nbases ns batch 1 T
      = .ok ((batch, ns, T),
          (batch, ns, nbases, encoderOutLen K S (T + paddingAmt K S T))) := by
  have hsum := padLeft_add_padRight K S T
  have hmod := paddingAmt_mod K S T hS hT
  rw [extractLatentShapes_ok]
  rw [show T + padLeftAmt K S T + padRightAmt K S T
      = T + paddingAmt K S T from by omega]
  rw [decoder_encoder_roundtrip K S (T + paddingAmt K S T) hS (by omega) hmod]
  rw [show T + paddingAmt K S T - padLeftAmt K S T - padRightAmt K S T
      = T from by omega]

/-- Witness for C3: the end-to-end scenario of the spec, batch 3,
T = 8000, kernel_size 16, stride 8, 64 bases, 2 sources, giving output
shape (3, 2, 8000) and latent shape (3, 2, 64, 999). -/
theorem C3_output_shape_witness :
    extractLatentShapes 16 8 64 2 3 1 8000
      = .ok ((3, 2, 8000), (3, 2, 64, 999)) := by
  have h := C3_output_shape 16 8 64 2 3 8000 (by norm_num) (by norm_num)
    (by norm_num)
  norm_num [encoderOutLen, paddingAmt] at h
  exact h

lemma viewMask_eq_equiv {B S F T : ℕ}
    (y : Fin B → Fin (S * F) → Fin T → ℝ)
    (b : Fin B) (s : Fin S) (f : Fin F) (t : Fin T) :
    viewMask y b s f t = y b (finProdFinEquiv (s, f)) t := by
  unfold viewMask
  have hv : (finProdFinEquiv (s, f) : Fin (S * F)).val
      = s.val * F + f.val := by
    show f.val + F * s.val = s.val * F + f.val
    ring
  congr 1
  exact Fin.ext hv.symm

lemma sigmoidFn_nonneg (y : ℝ) : 0 ≤ sigmoidFn y := by
  unfold sigmoidFn
  positivity

lemma sigmoidFn_le_one (y : ℝ) : sigmoidFn y ≤ 1 := by
  unfold sigmoidFn
  rw [div_le_one (by positivity)]
  linarith [Real.exp_pos (-y)]

/-- C1 counterexample: with 2 sources, 2 bases, the all-zero pre-mask
tensor, softmax mode gives each mask entry the value 1/4 (it normalizes
over the combined 4-entry sources-times-bases axis before the reshape),
so the per-source sum at the fixed (batch, basis, frame) (0, 0, 0) is
1/2, not 1 as the claim states. -/
theorem C1_counterexample :
    ¬ (∑ s : Fin 2, separatorMask MaskNonlinear.softmax
        (fun _ _ _ => (0:ℝ)) (0 : Fin 1) s (0 : Fin 2) (0 : Fin 1) = 1) := by
  intro h
  have hx : ∀ s : Fin 2, separatorMask MaskNonlinear.softmax
      (fun _ _ _ => (0:ℝ)) (0 : Fin 1) s (0 : Fin 2) (0 : Fin 1)
      = 1 / 4 := by
    intro s
    show Real.exp 0 / (∑ c2 : Fin (2 * 2), Real.exp 0) = 1 / 4
    rw [Real.exp_zero, Finset.sum_const, Finset.card_univ, Fintype.card_fin]
    norm_num
  rw [Fin.sum_univ_two, hx 0, hx 1] at h
  norm_num at h

/-- C1 amended: the softmax is applied over the combined
sources-times-bases channel axis of the pre-reshape tensor, so the mask
values sum to 1 over all (source, basis) pairs jointly for each
(batch, frame) pair; sigmoid mode produces values in [0, 1] and relu
mode values in [0, ∞), as the claim states. -/
theorem C1_mask_nonlinearity {B S F T : ℕ} (hSF : 0 < S * F)
    (x : Fin B → Fin (S * F) → Fin T → ℝ) :
    (∀ (b : Fin B) (t : Fin T),
      ∑ s : Fin S, ∑ f : Fin F,
        separatorMask MaskNonlinear.softmax x b s f t = 1) ∧
    (∀ (b : Fin B) (s : Fin S) (f : Fin F) (t : Fin T),
      0 ≤ separatorMask MaskNonlinear.sigmoid x b s f t ∧
      separatorMask MaskNonlinear.sigmoid x b s f t ≤ 1) ∧
    (∀ (b : Fin B) (s : Fin S) (f : Fin F) (t : Fin T),
      0 ≤ separatorMask MaskNonlinear.relu x b s f t) := by
  refine ⟨?_, ?_, ?_⟩
  · intro b t
    have hne : (Finset.univ : Finset (Fin (S * F))).Nonempty :=
      ⟨⟨0, hSF⟩, Finset.mem_univ _⟩
    have hD : (0:ℝ) < ∑ c : Fin (S * F), Real.exp (x b c t) :=
      Finset.sum_pos (fun c _ => Real.exp_pos _) hne
    have hview : ∀ (s : Fin S) (f : Fin F),
        separatorMask MaskNonlinear.softmax x b s f t
          = Real.exp (x b (finProdFinEquiv (s, f)) t)
            / (∑ c2 : Fin (S * F), Real.exp (x b c2 t)) := by
      intro s f
      rw [show separatorMask MaskNonlinear.softmax x b s f t
          = viewMask (softmaxDim1 x) b s f t from rfl, viewMask_eq_equiv]
      rfl
    have hsum : ∑ p : Fin S × Fin F,
        Real.exp (x b (finProdFinEquiv p) t)
          / (∑ c2 : Fin (S * F), Real.exp (x b c2 t))
        = ∑ c : Fin (S * F), Real.exp (x b c t)
          / (∑ c2 : Fin (S * F), Real.exp (x b c2 t)) :=
      Fintype.sum_equiv finProdFinEquiv
        (fun p => Real.exp (x b (finProdFinEquiv p) t)
          / (∑ c2 : Fin (S * F), Real.exp (x b c2 t)))
        (fun c => Real.exp (x b c t)
          / (∑ c2 : Fin (S * F), Real.exp (x b c2 t)))
        (fun p => rfl)
    calc ∑ s : Fin S, ∑ f : Fin F,
          separatorMask MaskNonlinear.softmax x b s f t
        = ∑ s : Fin S, ∑ f : Fin F,
            Real.exp (x b (finProdFinEquiv (s, f)) t)
              / (∑ c2 : Fin (S * F), Real.exp (x b c2 t)) :=
          Finset.sum_congr rfl (fun s _ =>
            Finset.sum_congr rfl (fun f _ => hview s f))
      _ = ∑ p : Fin S × Fin F,
            Real.exp (x b (finProdFinEquiv p) t)
              / (∑ c2 : Fin (S * F), Real.exp (x b c2 t)) :=
          (Fintype.sum_prod_type (fun p : Fin S × Fin F =>
            Real.exp (x b (finProdFinEquiv p) t)
              / (∑ c2 : Fin (S * F), Real.exp (x b c2 t)))).symm
      _ = ∑ c : Fin (S * F), Real.exp (x b c t)
            / (∑ c2 : Fin (S * F), Real.exp (x b c2 t)) := hsum
      _ = 1 := by rw [← Finset.sum_div, div_self hD.ne']
  · intro b s f t
    exact ⟨sigmoidFn_nonneg _, sigmoidFn_le_one _⟩
  · intro b s f t
    exact le_max_right _ _

/-- Witness for the amended C1 at batch 1, 1 source, 1 basis, 1 frame and
the all-zero pre-mask tensor. -/
theorem C1_mask_nonlinearity_witness :
    (∑ s : Fin 1, ∑ f : Fin 1, separatorMask MaskNonlinear.softmax
      (fun _ _ _ => (0:ℝ)) (0 : Fin 1) s f (0 : Fin 1) = 1) ∧
    (0 ≤ separatorMask MaskNonlinear.sigmoid (fun _ _ _ => (0:ℝ))
        (0 : Fin 1) (0 : Fin 1) (0 : Fin 1) (0 : Fin 1) ∧
      separatorMask MaskNonlinear.sigmoid (fun _ _ _ => (0:ℝ))
        (0 : Fin 1) (0 : Fin 1) (0 : Fin 1) (0 : Fin 1) ≤ 1) ∧
    (0 ≤ separatorMask MaskNonlinear.relu (fun _ _ _ => (0:ℝ))
        (0 : Fin 1) (0 : Fin 1) (0 : Fin 1) (0 : Fin 1)) := by
  have h := @C1_mask_nonlinearity 1 1 1 1 (by norm_num) (fun _ _ _ => 0)
  exact ⟨h.1 0 0, h.2.1 0 0 0 0, h.2.2 0 0 0 0⟩
